import Mathlib

/-!
Verification of the slackiveroo order-tracking engine.

Shallow embedding of the repository sources:
- `src/slack.py`   : `Channel` (structural equality on team/channel ids),
                     `Channel.post_message` (join-and-retry on not_in_channel),
                     `post_message` (fan-out over a channel list).
- `src/tracker.py` : `Tracker` state, `Tracker.add_channel` (dedup + catch-up),
                     `Tracker.format_slack_status_update`, `Tracker.run`
                     (poll -> detect message change -> notify -> stop on terminal).
- `src/app.py`     : the `orders_being_tracked` registry with `start_tracking`
                     (check-then-insert-or-merge, removal after the tracking task
                     ends) and `perform_tracking` (resolve then poll loop).

Effectful collaborators (HTTP fetch of the order status, resolution of the
sharing link, per-channel message delivery) are injected as explicit data:
a list of fetch results consumed one per poll iteration, an `Except` value for
the one-shot resolver, and a delivery function returning `Except`.  A Python
exception is modelled as the `Except.error` case; an `assert` that fails is an
exception.  All runs are single-task: asyncio schedules the registry
bookkeeping of `start_tracking` atomically (no await between the membership
check and the insert/merge), so sequential state passing is faithful.
-/

namespace Slackiveroo

/-- The attributes of `state['data']` in a Deliveroo API response:
`ui_status`, `message`, and the optional `eta_message` key. -/
structure OrderAttributes where
  ui_status : String
  message : String
  eta_message : Option String
deriving Repr, DecidableEq

/-- The attributes of `state['included'][0]` (the order block) in a Deliveroo
API response: restaurant name, public short URL and the preview-image URL
template (containing `{w}` and `{h}` placeholders). -/
structure OrderInfo where
  restaurant_name : String
  sharing_short_url : String
  image_url : String
deriving Repr, DecidableEq

/-- A well-formed Deliveroo API response, as read by the tracker:
`included[0].attributes` and `data.attributes`. -/
structure DeliverooState where
  order : OrderInfo
  attributes : OrderAttributes
deriving Repr, DecidableEq

/-- `slack.Channel`: a (team_id, channel_id) pair plus a lazily resolved
token (credentials). -/
structure Channel where
  team_id : String
  channel_id : String
  token : Option String
deriving Repr, DecidableEq

/-- `Channel.__eq__` from `src/slack.py`: two channels are equal when their
`(team_id, channel_id)` pairs are equal; the token is not compared. -/
def channelEq (a b : Channel) : Bool :=
  a.team_id == b.team_id && a.channel_id == b.channel_id

/-- One Slack block as built by `format_slack_status_update`: the mrkdwn text
of the section and the accessory image (url and alt text). -/
structure SlackBlock where
  text : String
  image_url : String
  alt_text : String
deriving Repr, DecidableEq

/-- `Tracker.format_slack_status_update` from `src/tracker.py`: formats a
Deliveroo API response into `(text.split newline first element, [block])`.
Python `order['image_url'].format(w=192, h=108)` substitutes the `{w}` and
`{h}` placeholders. -/
def format_slack_status_update (s : DeliverooState) : String × List SlackBlock :=
  let order := s.order
  let attributes := s.attributes
  let text :=
    if attributes.ui_status == "FAILED" then
      "@here :rotating_light: The order from *" ++ order.restaurant_name ++
        "* has *FAILED* _(" ++ attributes.message ++ ")_\n" ++ order.sharing_short_url
    else
      match attributes.eta_message with
      | none => "*" ++ order.restaurant_name ++ "* is here, @hungry people :bowl_with_spoon: !"
      | some eta =>
          "*" ++ order.restaurant_name ++ "*: " ++ attributes.message ++
            "\n*ETA*: " ++ eta ++ "\n" ++ order.sharing_short_url
  let block : SlackBlock :=
    { text := text
      image_url := (order.image_url.replace "{w}" "192").replace "{h}" "108"
      alt_text := "Restaurant preview" }
  ((text.splitOn "\n").headD "", [block])

/-- The mutable state of `tracker.Tracker`: channel list, completion flag,
tracking URL, and the last fetched Deliveroo state (None before the first
successful poll). -/
structure Tracker where
  channels : List Channel
  completed : Bool
  tracking_url : String
  current_state : Option DeliverooState
deriving Repr, DecidableEq

/-- The duplicate check of `Tracker.add_channel`
(`for known_chan in self.channels: if chan == known_chan: return`). -/
def containsChannel (cs : List Channel) (chan : Channel) : Bool :=
  cs.any (fun known => channelEq chan known)

/-- Result of one `Tracker.add_channel` call: `inserted` records which branch
executed (`false` when the early `return` on a duplicate fired, `true` when
the channel was appended), the updated tracker, and the catch-up messages
posted (channel, text, blocks). -/
structure AddChannelResult where
  inserted : Bool
  tracker : Tracker
  posts : List (Channel × String × List SlackBlock)
deriving Repr, DecidableEq

/-- `Tracker.add_channel` from `src/tracker.py`: skip a structurally equal
channel; else append it and, when `current_state` is already known, post the
formatted current status to the new channel alone. -/
def add_channel (t : Tracker) (chan : Channel) : AddChannelResult :=
  if containsChannel t.channels chan then
    { inserted := false, tracker := t, posts := [] }
  else
    let tNew : Tracker := { t with channels := t.channels ++ [chan] }
    match t.current_state with
    | none => { inserted := true, tracker := tNew, posts := [] }
    | some s =>
        { inserted := true
          tracker := tNew
          posts := [(chan, (format_slack_status_update s).1,
                      (format_slack_status_update s).2)] }

/-- `slack.post_message` from `src/slack.py`: iterate the channel list,
awaiting one delivery per channel.  `deliver` is the injected per-channel
send (`Channel.post_message`); an `Except.error` models the exception it can
raise.  Returns the channels to which a delivery was attempted, and the
exception escaping the loop, if any: the first raising delivery stops the
iteration. -/
def post_message {α : Type} (deliver : α → String → Except String Unit) :
    List α → String → List α × Option String
  | [], _ => ([], none)
  | chan :: rest, text =>
    match deliver chan text with
    | Except.error e => ([chan], some e)
    | Except.ok _ =>
      let r := post_message deliver rest text
      (chan :: r.1, r.2)

/-- One Slack API response to a `chat.postMessage` attempt, as inspected by
`Channel.post_message`: `ok`, or not-ok with `error ==
not_in_channel`, or not-ok with any other error string. -/
inductive SlackResponse where
  | ok
  | errNotInChannel
  | errOther (e : String)
deriving Repr, DecidableEq

/-- `Channel.post_message` from `src/slack.py`, driven by the stream of Slack
API responses to its successive post attempts (one response consumed per
attempt; `join` is modelled as succeeding).  Returns (number of post
attempts, number of joins, outcome): an `ok` response succeeds; a
`not_in_channel` response triggers a join followed by a recursive retry; any
other not-ok response fails the `assert response.ok` (an exception). -/
def channel_post_message : List SlackResponse → Nat × Nat × Except String Unit
  | [] => (0, 0, Except.error "no_response")
  | SlackResponse.ok :: _ => (1, 0, Except.ok ())
  | SlackResponse.errNotInChannel :: rest =>
    let r := channel_post_message rest
    (1 + r.1, 1 + r.2.1, r.2.2)
  | SlackResponse.errOther e :: _ => (1, 0, Except.error e)

/-- Outcome of one status fetch (`get_order_status` / `session.get` of the
tracking URL): a parsed state, or a raised exception (network failure or the
`assert page.status == 200`). -/
inductive FetchResult where
  | ok (s : DeliverooState)
  | err
deriving Repr, DecidableEq

/-- The terminal-status test of the polling loops:
`status in ('COMPLETED', 'FAILED')`. -/
def isTerminalStatus (status : String) : Bool :=
  status == "COMPLETED" || status == "FAILED"

/-- Record of one completed poll iteration: the fetched message and
ui_status, and whether a notification round was performed. -/
structure IterRec where
  message : String
  ui_status : String
  delivered : Bool
deriving Repr, DecidableEq

/-- How a polling run ended: fuel exhausted while still polling, a fetch
raised, a delivery raised, or a terminal status broke the loop. -/
inductive RunEnd where
  | outOfFuel
  | fetchRaised
  | deliveryRaised
  | terminal
deriving Repr, DecidableEq

/-- Observable trace of a polling run: number of fetch calls performed, the
records of iterations whose fetch succeeded, and how the run ended. -/
structure RunTrace where
  fetches : Nat
  iters : List IterRec
  ending : RunEnd
deriving Repr, DecidableEq

/-- The polling loop shared by `Tracker.run` (`src/tracker.py`) and
`perform_tracking` (`src/app.py`): repeatedly fetch the status; when the
message differs from `last` (the `last_msg` variable, initially None),
format and fan out a notification over `channels` and update `last`; break
on a terminal status; otherwise sleep and repeat.  `fetches` is the stream
of fetch outcomes, one consumed per iteration; an exhausted stream means the
loop is still polling.  An exception from a fetch or from the fan-out
escapes the loop. -/
def run {α : Type} (deliver : α → String → Except String Unit) (channels : List α) :
    Option String → List FetchResult → RunTrace
  | _, [] => ⟨0, [], RunEnd.outOfFuel⟩
  | _, FetchResult.err :: _ => ⟨1, [], RunEnd.fetchRaised⟩
  | last, FetchResult.ok s :: rest =>
    let msg := s.attributes.message
    let changed := some msg != last
    if changed && (post_message deliver channels (format_slack_status_update s).1).2.isSome then
      ⟨1, [⟨msg, s.attributes.ui_status, changed⟩], RunEnd.deliveryRaised⟩
    else if isTerminalStatus s.attributes.ui_status then
      ⟨1, [⟨msg, s.attributes.ui_status, changed⟩], RunEnd.terminal⟩
    else
      let t := run deliver channels (if changed then some msg else last) rest
      ⟨1 + t.fetches, ⟨msg, s.attributes.ui_status, changed⟩ :: t.iters, t.ending⟩

/-- Outcome of `perform_tracking`: the resolver (`get_tracking_url`) raised
before any poll, or the polling loop ran and produced a trace. -/
inductive TrackResult where
  | resolveFailed
  | ran (t : RunTrace)
deriving Repr, DecidableEq

/-- Number of status fetches performed by a tracking task. -/
def TrackResult.fetchCount : TrackResult → Nat
  | TrackResult.resolveFailed => 0
  | TrackResult.ran t => t.fetches

/-- `perform_tracking` from `src/app.py`: resolve the sharing URL into a
tracking URL (`resolve` is the one-shot `get_tracking_url`; its exception
escapes before any fetch), then run the polling loop with `last_msg = None`. -/
def perform_tracking {α : Type} (resolve : Except String String)
    (deliver : α → String → Except String Unit) (channels : List α)
    (fetches : List FetchResult) : TrackResult :=
  match resolve with
  | Except.error _ => TrackResult.resolveFailed
  | Except.ok _ => TrackResult.ran (run deliver channels none fetches)

/-- The `orders_being_tracked` dict of `src/app.py`: rooit URL to the set of
Slack channels interested in that order.  Keys occur at most once. -/
abbrev Registry := List (String × List String)

/-- Python `rooit_url in orders_being_tracked` plus the lookup: the channel
set registered for `k`, if any. -/
def registryFind : Registry → String → Option (List String)
  | [], _ => none
  | e :: rest, k => if e.1 == k then some e.2 else registryFind rest k

/-- Python `set.add`: insert a channel unless an equal one is already a
member. -/
def setAdd (s : List String) (c : String) : List String :=
  if c ∈ s then s else s ++ [c]

/-- `orders_being_tracked[rooit_url].add(slack_channel)`: merge a channel
into the set registered for `k`. -/
def registryMerge : Registry → String → String → Registry
  | [], _, _ => []
  | e :: rest, k, c =>
    if e.1 == k then (e.1, setAdd e.2 c) :: registryMerge rest k c
    else e :: registryMerge rest k c

/-- `orders_being_tracked.pop(rooit_url)`: remove the entry for `k`. -/
def registryPop : Registry → String → Registry
  | [], _ => []
  | e :: rest, k => if e.1 == k then registryPop rest k else e :: registryPop rest k

/-- The registry bookkeeping of `start_tracking` (`src/app.py`, the
check-then-act at the head of the function): if `k` is already tracked,
merge the channel into its set and create no tracker; else register
`{k : set([c])}` and create (spawn) a new tracker.  The returned Bool is
whether a new tracker was created. -/
def start_tracking_register (reg : Registry) (k c : String) : Registry × Bool :=
  match registryFind reg k with
  | some _ => (registryMerge reg k c, false)
  | none => (reg ++ [(k, [c])], true)

/-- A sequence of `start_tracking` registry steps for one key, one channel
per call, counting how many trackers were created across the calls. -/
def process_calls (k : String) : Registry → List String → Registry × Nat
  | reg, [] => (reg, 0)
  | reg, c :: cs =>
    let r := start_tracking_register reg k c
    let rest := process_calls k r.1 cs
    (rest.1, (if r.2 then 1 else 0) + rest.2)

/-- The create branch of `start_tracking` (`src/app.py`) run to completion,
for a key not yet tracked: register `{k : set([c])}`, run `perform_tracking`
under the bare `except` that logs any escaping exception, then pop the key.
Returns the final registry and the tracking outcome. -/
def start_tracking_run (reg : Registry) (k c : String) (resolve : Except String String)
    (deliver : String → String → Except String Unit)
    (fetches : List FetchResult) : Registry × TrackResult :=
  let reg1 := reg ++ [(k, [c])]
  let res := perform_tracking resolve deliver [c] fetches
  (registryPop reg1 k, res)

/-- Spec-side fold (sect. 3 of the spec, OrderStatus change detection): the
last notified message after a list of iteration records, starting from
`init`. -/
def lastNotified (init : Option String) (iters : List IterRec) : Option String :=
  iters.foldl (fun acc it => if it.delivered then some it.message else acc) init

/-- A fetch outcome that keeps the polling loop going: a successful fetch of
a non-terminal status. -/
def okNonTerminal : FetchResult → Bool
  | FetchResult.ok s => !isTerminalStatus s.attributes.ui_status
  | FetchResult.err => false

/-! Helper lemmas on the registry. -/

lemma setAdd_mem (s : List String) (c x : String) :
    x ∈ setAdd s c ↔ x ∈ s ∨ x = c := by
  unfold setAdd
  by_cases h : c ∈ s
  · simp only [if_pos h]
    constructor
    · exact fun hx => Or.inl hx
    · rintro (hx | rfl)
      · exact hx
      · exact h
  · simp [if_neg h]

lemma registryFind_merge (k c : String) (s : List String) :
    ∀ reg : Registry, registryFind reg k = some s →
      registryFind (registryMerge reg k c) k = some (setAdd s c) := by
  intro reg
  induction reg with
  | nil => intro h; simp [registryFind] at h
  | cons e rest ih =>
    intro h
    by_cases he : (e.1 == k) = true
    · have hs : s = e.2 := by
        simp [registryFind, he] at h
        exact h.symm
      subst hs
      simp [registryMerge, registryFind, he]
    · have hrest : registryFind rest k = some s := by
        simpa [registryFind, he] using h
      simpa [registryMerge, registryFind, he] using ih hrest

lemma registryFind_append_new (k : String) (v : List String) :
    ∀ reg : Registry, registryFind reg k = none →
      registryFind (reg ++ [(k, v)]) k = some v := by
  intro reg
  induction reg with
  | nil =>
    intro _
    simp [registryFind]
  | cons e rest ih =>
    intro h
    by_cases he : (e.1 == k) = true
    · simp [registryFind, he] at h
    · have hrest : registryFind rest k = none := by
        simpa [registryFind, he] using h
      simpa [registryFind, he] using ih hrest

lemma registryFind_pop (k : String) :
    ∀ reg : Registry, registryFind (registryPop reg k) k = none := by
  intro reg
  induction reg with
  | nil => rfl
  | cons e rest ih =>
    by_cases he : (e.1 == k) = true
    · simpa [registryPop, registryFind, he] using ih
    · simpa [registryPop, registryFind, he] using ih

lemma process_calls_existing (k : String) (cs : List String) :
    ∀ (reg : Registry) (s : List String), registryFind reg k = some s →
      (process_calls k reg cs).2 = 0 ∧
      ∃ sFinal, registryFind (process_calls k reg cs).1 k = some sFinal ∧
        ∀ x, x ∈ sFinal ↔ (x ∈ s ∨ x ∈ cs) := by
  induction cs with
  | nil =>
    intro reg s h
    refine ⟨rfl, s, h, ?_⟩
    simp
  | cons c cs ih =>
    intro reg s h
    have hstep : start_tracking_register reg k c = (registryMerge reg k c, false) := by
      simp [start_tracking_register, h]
    have hmerged := registryFind_merge k c s reg h
    obtain ⟨hcount, sFinal, hfind, hmem⟩ := ih (registryMerge reg k c) (setAdd s c) hmerged
    refine ⟨?_, sFinal, ?_, ?_⟩
    · simp [process_calls, hstep, hcount]
    · simpa [process_calls, hstep] using hfind
    · intro x
      rw [hmem x, setAdd_mem]
      simp only [List.mem_cons]
      tauto

/-- Claim C1: for every sequence of tracking requests sharing one OrderKey,
processed against a registry that does not yet track that key, exactly one
tracker is created and registered for the key, and after the last call the
registered channel set has exactly the channels passed across the calls (the
union of all destinations). -/
theorem spec_c1 (reg : Registry) (k c : String) (cs : List String)
    (h : registryFind reg k = none) :
    (process_calls k reg (c :: cs)).2 = 1 ∧
    ∃ s, registryFind (process_calls k reg (c :: cs)).1 k = some s ∧
      ∀ x, x ∈ s ↔ x ∈ c :: cs := by
  have hstep : start_tracking_register reg k c = (reg ++ [(k, [c])], true) := by
    simp [start_tracking_register, h]
  have hreg1 : registryFind (reg ++ [(k, [c])]) k = some [c] :=
    registryFind_append_new k [c] reg h
  obtain ⟨hcount, sFinal, hfind, hmem⟩ := process_calls_existing k cs _ _ hreg1
  refine ⟨?_, sFinal, ?_, ?_⟩
  · simp [process_calls, hstep, hcount]
  · simpa [process_calls, hstep] using hfind
  · intro x
    rw [hmem x]
    simp

/-- Witness for C1: starting from an empty registry, three calls for the
same order (two distinct channels, one repeated) create exactly one tracker,
and its final set holds exactly the two channels. -/
theorem spec_c1_witness :
    registryFind [] "https://roo.it/s/abc" = none ∧
    (process_calls "https://roo.it/s/abc" [] ["C1", "C2", "C1"]).2 = 1 ∧
    registryFind (process_calls "https://roo.it/s/abc" [] ["C1", "C2", "C1"]).1
      "https://roo.it/s/abc" = some ["C1", "C2"] :=
  ⟨rfl, (spec_c1 [] "https://roo.it/s/abc" "C1" ["C2", "C1"] rfl).1, by decide⟩

/-! Concrete sample values used by the witnesses and counterexamples. -/

def sampleOrder : OrderInfo :=
  ⟨"La Pizzeria", "https://roo.it/s/xyz", "https://img.example/{w}x{h}/pic.jpg"⟩

def stPreparing : DeliverooState :=
  ⟨sampleOrder, ⟨"IN_PROGRESS", "Preparing your order", some "20 min"⟩⟩

def stCompleted : DeliverooState :=
  ⟨sampleOrder, ⟨"COMPLETED", "Order delivered", none⟩⟩

def stFailed : DeliverooState :=
  ⟨sampleOrder, ⟨"FAILED", "Courier unavailable", none⟩⟩

def ch1 : Channel := ⟨"T1", "C1", none⟩

def ch2 : Channel := ⟨"T1", "C2", some "tok"⟩

def deliverOkC : Channel → String → Except String Unit := fun _ _ => Except.ok ()

def deliverOkS : String → String → Except String Unit := fun _ _ => Except.ok ()

def fsTwoSame : List FetchResult := [FetchResult.ok stPreparing, FetchResult.ok stPreparing]

/-! Helper lemmas on the polling loop. -/

lemma post_message_of_ok {α : Type} (deliver : α → String → Except String Unit)
    (hdel : ∀ ch t, deliver ch t = Except.ok ()) (cs : List α) (text : String) :
    post_message deliver cs text = (cs, none) := by
  induction cs with
  | nil => rfl
  | cons ch cs ih => simp [post_message, hdel, ih]

lemma run_cons_ok {α : Type} (deliver : α → String → Except String Unit)
    (channels : List α) (hdel : ∀ ch t, deliver ch t = Except.ok ())
    (last : Option String) (s : DeliverooState) (rest : List FetchResult) :
    run deliver channels last (FetchResult.ok s :: rest) =
      if isTerminalStatus s.attributes.ui_status then
        ⟨1, [⟨s.attributes.message, s.attributes.ui_status, some s.attributes.message != last⟩],
          RunEnd.terminal⟩
      else
        ⟨1 + (run deliver channels
            (if some s.attributes.message != last then some s.attributes.message else last)
            rest).fetches,
          ⟨s.attributes.message, s.attributes.ui_status, some s.attributes.message != last⟩ ::
            (run deliver channels
              (if some s.attributes.message != last then some s.attributes.message else last)
              rest).iters,
          (run deliver channels
            (if some s.attributes.message != last then some s.attributes.message else last)
            rest).ending⟩ := by
  have hpm := post_message_of_ok deliver hdel channels (format_slack_status_update s).1
  simp [run, hpm]

/-- Claim C2: within one polling run whose deliveries all succeed, iteration
`i` performs a notification round exactly when the fetched message differs
from the last notified message (the fold of the delivered messages over the
earlier iterations, starting from the initial `last_msg`).  The test depends
only on the message field, never on the status code, and a delivery updates
the last-notified message to the delivered one. -/
theorem spec_c2 {α : Type} (deliver : α → String → Except String Unit)
    (channels : List α) (fetches : List FetchResult) (last : Option String)
    (hdel : ∀ ch t, deliver ch t = Except.ok ())
    (i : Nat) (it : IterRec)
    (hit : (run deliver channels last fetches).iters.get? i = some it) :
    (it.delivered = true) ↔
      some it.message ≠ lastNotified last ((run deliver channels last fetches).iters.take i) := by
  induction fetches generalizing last i with
  | nil => simp [run] at hit
  | cons f rest ih =>
    cases f with
    | err => simp [run] at hit
    | ok s =>
      rw [run_cons_ok deliver channels hdel] at hit ⊢
      by_cases hterm : isTerminalStatus s.attributes.ui_status = true
      · simp only [if_pos hterm] at hit ⊢
        cases i with
        | zero =>
          simp only [List.get?_cons_zero, Option.some_inj] at hit
          subst hit
          simp [lastNotified, bne_iff_ne]
        | succ j => simp [List.get?] at hit
      · simp only [if_neg hterm] at hit ⊢
        cases i with
        | zero =>
          simp only [List.get?_cons_zero, Option.some_inj] at hit
          subst hit
          simp [lastNotified, bne_iff_ne]
        | succ j =>
          simp only [List.get?_cons_succ] at hit
          have hrec := ih
            (if some s.attributes.message != last then some s.attributes.message else last) j hit
          simpa [lastNotified, List.take_succ_cons] using hrec

/-- Witness for C2: polling twice with the same message, the second
iteration delivers nothing, in accordance with the change-detection rule. -/
theorem spec_c2_witness :
    deliverOkC ch1 "m" = Except.ok () ∧
    (run deliverOkC [ch1] none fsTwoSame).iters.get? 1 =
      some ⟨"Preparing your order", "IN_PROGRESS", false⟩ ∧
    (((⟨"Preparing your order", "IN_PROGRESS", false⟩ : IterRec).delivered = true) ↔
      some (⟨"Preparing your order", "IN_PROGRESS", false⟩ : IterRec).message ≠
        lastNotified none ((run deliverOkC [ch1] none fsTwoSame).iters.take 1)) :=
  ⟨rfl, by decide,
    spec_c2 deliverOkC [ch1] fsTwoSame none (fun _ _ => rfl) 1
      ⟨"Preparing your order", "IN_PROGRESS", false⟩ (by decide)⟩

lemma run_terminal_of_prefix {α : Type} (deliver : α → String → Except String Unit)
    (channels : List α) (hdel : ∀ ch t, deliver ch t = Except.ok ()) :
    ∀ (pre : List FetchResult) (last : Option String) (s : DeliverooState)
      (post : List FetchResult),
      (∀ f ∈ pre, okNonTerminal f = true) →
      isTerminalStatus s.attributes.ui_status = true →
      (run deliver channels last (pre ++ FetchResult.ok s :: post)).fetches = pre.length + 1 ∧
      (run deliver channels last (pre ++ FetchResult.ok s :: post)).ending = RunEnd.terminal := by
  intro pre
  induction pre with
  | nil =>
    intro last s post _ hterm
    rw [List.nil_append, run_cons_ok deliver channels hdel, if_pos hterm]
    exact ⟨rfl, rfl⟩
  | cons f pre ih =>
    intro last s post hpre hterm
    cases f with
    | err =>
      have := hpre _ (List.mem_cons_self _ _)
      simp [okNonTerminal] at this
    | ok s0 =>
      have hnt : isTerminalStatus s0.attributes.ui_status = false := by
        have := hpre _ (List.mem_cons_self _ _)
        simpa [okNonTerminal] using this
      have hpre' : ∀ f ∈ pre, okNonTerminal f = true :=
        fun f hf => hpre f (List.mem_cons_of_mem _ hf)
      rw [List.cons_append, run_cons_ok deliver channels hdel, if_neg (by simp [hnt])]
      obtain ⟨h1, h2⟩ := ih
        (if some s0.attributes.message != last then some s0.attributes.message else last)
        s post hpre' hterm
      constructor
      · dsimp only
        rw [h1, List.length_cons]
        omega
      · dsimp only
        exact h2

/-- Claim C3: starting a tracker for a not-yet-tracked key with successful
resolution and deliveries, once a poll fetches a terminal status (COMPLETED
or FAILED) the loop breaks: the number of fetches performed is exactly the
non-terminal prefix plus the terminal one, regardless of how many further
fetch outcomes were available, and after the tracking task ends the key is
absent from the registry. -/
theorem spec_c3 (reg : Registry) (k c url : String)
    (deliver : String → String → Except String Unit)
    (pre : List FetchResult) (s : DeliverooState) (post : List FetchResult)
    (_hk : registryFind reg k = none)
    (hpre : ∀ f ∈ pre, okNonTerminal f = true)
    (hterm : isTerminalStatus s.attributes.ui_status = true)
    (hdel : ∀ ch t, deliver ch t = Except.ok ()) :
    ((start_tracking_run reg k c (Except.ok url) deliver
        (pre ++ FetchResult.ok s :: post)).2).fetchCount = pre.length + 1 ∧
    (run deliver [c] none (pre ++ FetchResult.ok s :: post)).ending = RunEnd.terminal ∧
    registryFind (start_tracking_run reg k c (Except.ok url) deliver
        (pre ++ FetchResult.ok s :: post)).1 k = none := by
  obtain ⟨h1, h2⟩ := run_terminal_of_prefix deliver [c] hdel pre none s post hpre hterm
  refine ⟨?_, h2, ?_⟩
  · simpa [start_tracking_run, perform_tracking, TrackResult.fetchCount] using h1
  · exact registryFind_pop k _

/-- Witness for C3: one non-terminal poll, then a COMPLETED poll; the run
performs exactly two fetches although a third outcome was available, and the
key is gone from the registry. -/
theorem spec_c3_witness :
    registryFind [] "https://roo.it/s/xyz" = none ∧
    okNonTerminal (FetchResult.ok stPreparing) = true ∧
    isTerminalStatus stCompleted.attributes.ui_status = true ∧
    deliverOkS "C1" "m" = Except.ok () ∧
    ((start_tracking_run [] "https://roo.it/s/xyz" "C1" (Except.ok "url") deliverOkS
        ([FetchResult.ok stPreparing] ++ FetchResult.ok stCompleted ::
          [FetchResult.ok stPreparing])).2).fetchCount = 2 ∧
    registryFind (start_tracking_run [] "https://roo.it/s/xyz" "C1" (Except.ok "url") deliverOkS
        ([FetchResult.ok stPreparing] ++ FetchResult.ok stCompleted ::
          [FetchResult.ok stPreparing])).1 "https://roo.it/s/xyz" = none :=
  ⟨rfl, by decide, by decide, rfl,
    (spec_c3 [] "https://roo.it/s/xyz" "C1" "url" deliverOkS
      [FetchResult.ok stPreparing] stCompleted [FetchResult.ok stPreparing]
      rfl (by decide) (by decide) (fun _ _ => rfl)).1,
    (spec_c3 [] "https://roo.it/s/xyz" "C1" "url" deliverOkS
      [FetchResult.ok stPreparing] stCompleted [FetchResult.ok stPreparing]
      rfl (by decide) (by decide) (fun _ _ => rfl)).2.2⟩

/-- Claim C4: adding a channel that is not yet a member posts a catch-up
message exactly when at least one poll has completed: with `current_state`
known, the current status is formatted and delivered to the new channel
alone; with no poll completed yet, nothing is posted. -/
theorem spec_c4 (t : Tracker) (chan : Channel)
    (hnew : containsChannel t.channels chan = false) :
    (add_channel t chan).posts =
      (t.current_state.map (fun s =>
        (chan, (format_slack_status_update s).1, (format_slack_status_update s).2))).toList := by
  unfold add_channel
  rw [if_neg (by simp [hnew])]
  cases t.current_state with
  | none => rfl
  | some s => rfl

/-- Witness for C4: a channel joining a tracker whose first poll already
succeeded receives the current status immediately, addressed to it alone. -/
theorem spec_c4_witness :
    containsChannel (Tracker.channels ⟨[ch1], false, "url", some stPreparing⟩) ch2 = false ∧
    (add_channel ⟨[ch1], false, "url", some stPreparing⟩ ch2).posts =
      ((Tracker.current_state ⟨[ch1], false, "url", some stPreparing⟩).map (fun s =>
        (ch2, (format_slack_status_update s).1, (format_slack_status_update s).2))).toList :=
  ⟨by decide, spec_c4 ⟨[ch1], false, "url", some stPreparing⟩ ch2 (by decide)⟩

/-- Claim C5 is right and the code is wrong (a defect the spec flags): a
single failing status fetch is not retried.  Evaluating `start_tracking` at
a trace whose first fetch raises while the next poll would have succeeded
with a terminal status: the exception escapes the polling loop after one
fetch (the available second outcome is never fetched), the bare `except` in
`start_tracking` logs it, and the key is popped from the registry, so the
tracker is gone instead of retrying on the next scheduled poll. -/
theorem spec_c5_code_behavior :
    (start_tracking_run [] "https://roo.it/s/xyz" "C1" (Except.ok "url") deliverOkS
        [FetchResult.err, FetchResult.ok stCompleted]).2 =
      TrackResult.ran ⟨1, [], RunEnd.fetchRaised⟩ ∧
    registryFind (start_tracking_run [] "https://roo.it/s/xyz" "C1" (Except.ok "url") deliverOkS
        [FetchResult.err, FetchResult.ok stCompleted]).1 "https://roo.it/s/xyz" = none := by
  constructor
  · rfl
  · decide

/-- A per-channel delivery that raises for channel id C1 and succeeds for
every other channel. -/
def deliverFailC1 : Channel → String → Except String Unit :=
  fun ch _ => if ch.channel_id == "C1" then Except.error "boom" else Except.ok ()

/-- Counterexample for C6 as stated: with two channels and delivery to the
first raising, the fan-out of `slack.post_message` attempts only the first
channel; the second, although a remaining destination of that round, is
never attempted. -/
theorem spec_c6_counterexample :
    deliverFailC1 ch1 "m" = Except.error "boom" ∧
    (post_message deliverFailC1 [ch1, ch2] "m").1 = [ch1] ∧
    ch2 ∉ (post_message deliverFailC1 [ch1, ch2] "m").1 := by
  refine ⟨rfl, rfl, ?_⟩
  decide

/-- Claim C6, amended: in a fan-out round over several destinations, the
first delivery that raises stops the round: deliveries are attempted exactly
to the destinations up to and including the first failing one, the later
destinations of the round are skipped, and the exception escapes the
fan-out (aborting the polling loop that awaited it). -/
theorem spec_c6 {α : Type} (deliver : α → String → Except String Unit) (text : String)
    (pre : List α) (c : α) (post : List α) (e : String)
    (hpre : ∀ ch ∈ pre, deliver ch text = Except.ok ())
    (hc : deliver c text = Except.error e) :
    post_message deliver (pre ++ c :: post) text = (pre ++ [c], some e) := by
  induction pre with
  | nil => simp [post_message, hc]
  | cons a pre ih =>
    have ha : deliver a text = Except.ok () := hpre a (List.mem_cons_self _ _)
    have hpre' : ∀ ch ∈ pre, deliver ch text = Except.ok () :=
      fun ch hch => hpre ch (List.mem_cons_of_mem _ hch)
    simp [post_message, ha, ih hpre']

/-- Witness for C6 (amended): one succeeding channel before the failing one;
the attempts are exactly those two and the error escapes. -/
theorem spec_c6_witness :
    deliverFailC1 ch2 "m" = Except.ok () ∧
    deliverFailC1 ch1 "m" = Except.error "boom" ∧
    post_message deliverFailC1 ([ch2] ++ ch1 :: [ch2]) "m" = ([ch2] ++ [ch1], some "boom") :=
  ⟨rfl, rfl,
    spec_c6 deliverFailC1 "m" [ch2] ch1 [ch2] "boom"
      (by intro ch hch; rcases List.mem_singleton.mp hch with rfl; rfl) rfl⟩

/-- Claim C7: when resolving the sharing URL fails, the tracking task aborts
with zero status fetches performed (the polling loop is never entered, no
retry of the resolution happens within the task), and once the task has
ended the key is absent from the registry. -/
theorem spec_c7 (reg : Registry) (k c e : String)
    (deliver : String → String → Except String Unit) (fetches : List FetchResult)
    (_hk : registryFind reg k = none) :
    (start_tracking_run reg k c (Except.error e) deliver fetches).2 =
      TrackResult.resolveFailed ∧
    ((start_tracking_run reg k c (Except.error e) deliver fetches).2).fetchCount = 0 ∧
    registryFind (start_tracking_run reg k c (Except.error e) deliver fetches).1 k = none := by
  refine ⟨rfl, rfl, ?_⟩
  exact registryFind_pop k _

/-- Witness for C7: a failing resolver with fetch outcomes available; no
fetch happens and the key is absent afterwards. -/
theorem spec_c7_witness :
    registryFind [] "https://roo.it/s/xyz" = none ∧
    (start_tracking_run [] "https://roo.it/s/xyz" "C1" (Except.error "404") deliverOkS
        [FetchResult.ok stPreparing]).2 = TrackResult.resolveFailed ∧
    ((start_tracking_run [] "https://roo.it/s/xyz" "C1" (Except.error "404") deliverOkS
        [FetchResult.ok stPreparing]).2).fetchCount = 0 ∧
    registryFind (start_tracking_run [] "https://roo.it/s/xyz" "C1" (Except.error "404")
        deliverOkS [FetchResult.ok stPreparing]).1 "https://roo.it/s/xyz" = none :=
  ⟨rfl, spec_c7 [] "https://roo.it/s/xyz" "C1" "404" deliverOkS [FetchResult.ok stPreparing] rfl⟩

lemma channelEq_symm (x y : Channel) : channelEq x y = channelEq y x := by
  rw [Bool.eq_iff_iff]
  simp only [channelEq, Bool.and_eq_true, beq_iff_eq]
  constructor <;> rintro ⟨h1, h2⟩ <;> exact ⟨h1.symm, h2.symm⟩

/-- Claim C8: the append branch of `add_channel` executes exactly when no
structurally equal channel is already a member; a duplicate add (equality on
(team_id, channel_id), the token playing no part) leaves the tracker, and in
particular its membership, unchanged; a fresh add appends the one channel;
and the no-duplicate-identity invariant of the channel list is preserved. -/
theorem spec_c8 (t : Tracker) (chan a b : Channel) :
    ((add_channel t chan).inserted = true ↔ containsChannel t.channels chan = false) ∧
    (containsChannel t.channels chan = true → (add_channel t chan).tracker = t) ∧
    (channelEq a b = true ↔ (a.team_id = b.team_id ∧ a.channel_id = b.channel_id)) ∧
    (containsChannel t.channels chan = false →
      (add_channel t chan).tracker.channels = t.channels ++ [chan]) ∧
    (List.Pairwise (fun x y => channelEq x y = false) t.channels →
      List.Pairwise (fun x y => channelEq x y = false) (add_channel t chan).tracker.channels) := by
  refine ⟨?_, ?_, ?_, ?_, ?_⟩
  · cases hcon : containsChannel t.channels chan with
    | true => simp [add_channel, hcon]
    | false => cases hcs : t.current_state <;> simp [add_channel, hcon, hcs]
  · intro h
    simp [add_channel, h]
  · simp [channelEq, Bool.and_eq_true, beq_iff_eq]
  · intro h
    cases hcs : t.current_state <;> simp [add_channel, h, hcs]
  · intro hp
    cases hcon : containsChannel t.channels chan with
    | true => simpa [add_channel, hcon] using hp
    | false =>
      have hch : ∀ known ∈ t.channels, channelEq chan known = false := by
        intro known hkn
        by_contra hne
        have htrue : channelEq chan known = true := by
          cases hcf : channelEq chan known
          · exact absurd hcf hne
          · rfl
        have hany : t.channels.any (fun kn => channelEq chan kn) = true :=
          List.any_eq_true.mpr ⟨known, hkn, htrue⟩
        rw [show t.channels.any (fun kn => channelEq chan kn) =
          containsChannel t.channels chan from rfl, hcon] at hany
        exact Bool.false_ne_true hany
      have hchs : (add_channel t chan).tracker.channels = t.channels ++ [chan] := by
        cases hcs : t.current_state <;> simp [add_channel, hcon, hcs]
      rw [hchs, List.pairwise_append]
      refine ⟨hp, List.pairwise_singleton _ _, ?_⟩
      intro x hx y hy
      rw [List.mem_singleton] at hy
      subst hy
      rw [channelEq_symm]
      exact hch x hx

/-- Witness for C8: adding a channel with the identity of an existing member
but a different token is recognized as a duplicate and changes nothing. -/
theorem spec_c8_witness :
    containsChannel [ch1] ⟨"T1", "C1", some "tok2"⟩ = true ∧
    (add_channel ⟨[ch1], false, "url", none⟩ ⟨"T1", "C1", some "tok2"⟩).tracker =
      ⟨[ch1], false, "url", none⟩ ∧
    ((add_channel ⟨[ch1], false, "url", none⟩ ⟨"T1", "C1", some "tok2"⟩).inserted = true ↔
      containsChannel [ch1] ⟨"T1", "C1", some "tok2"⟩ = false) :=
  ⟨by decide,
    (spec_c8 ⟨[ch1], false, "url", none⟩ ⟨"T1", "C1", some "tok2"⟩ ch1 ch1).2.1 (by decide),
    (spec_c8 ⟨[ch1], false, "url", none⟩ ⟨"T1", "C1", some "tok2"⟩ ch1 ch1).1⟩

/-- Claim C9: the formatter produces, for a FAILED status, the alert line
embedding the restaurant name and the status message; otherwise, with no
ETA text, the short ready notice naming the restaurant; otherwise the
three-line composite of restaurant and message, ETA, and the public short
URL — and in every case the display payload carries the restaurant preview
image with the placeholders substituted at width 192 and height 108. -/
theorem spec_c9 (s : DeliverooState) (eta : String) :
    (s.attributes.ui_status = "FAILED" →
      (format_slack_status_update s).2 =
        [⟨"@here :rotating_light: The order from *" ++ s.order.restaurant_name ++
            "* has *FAILED* _(" ++ s.attributes.message ++ ")_\n" ++ s.order.sharing_short_url,
          (s.order.image_url.replace "{w}" "192").replace "{h}" "108",
          "Restaurant preview"⟩]) ∧
    (s.attributes.ui_status ≠ "FAILED" → s.attributes.eta_message = none →
      (format_slack_status_update s).2 =
        [⟨"*" ++ s.order.restaurant_name ++ "* is here, @hungry people :bowl_with_spoon: !",
          (s.order.image_url.replace "{w}" "192").replace "{h}" "108",
          "Restaurant preview"⟩]) ∧
    (s.attributes.ui_status ≠ "FAILED" → s.attributes.eta_message = some eta →
      (format_slack_status_update s).2 =
        [⟨"*" ++ s.order.restaurant_name ++ "*: " ++ s.attributes.message ++
            "\n*ETA*: " ++ eta ++ "\n" ++ s.order.sharing_short_url,
          (s.order.image_url.replace "{w}" "192").replace "{h}" "108",
          "Restaurant preview"⟩]) ∧
    ((format_slack_status_update s).2.map SlackBlock.image_url =
      [(s.order.image_url.replace "{w}" "192").replace "{h}" "108"]) := by
  refine ⟨?_, ?_, ?_, ?_⟩
  · intro h
    simp [format_slack_status_update, h]
  · intro hne heta
    have hb : (s.attributes.ui_status == "FAILED") = false := beq_eq_false_iff_ne.mpr hne
    simp [format_slack_status_update, hb, heta]
  · intro hne heta
    have hb : (s.attributes.ui_status == "FAILED") = false := beq_eq_false_iff_ne.mpr hne
    simp [format_slack_status_update, hb, heta]
  · cases hif : s.attributes.ui_status == "FAILED" <;>
      cases hcs : s.attributes.eta_message <;>
      simp [format_slack_status_update, hif, hcs]

/-- Witness for C9: the formatter evaluated at a FAILED status. -/
theorem spec_c9_witness :
    stFailed.attributes.ui_status = "FAILED" ∧
    (format_slack_status_update stFailed).2 =
      [⟨"@here :rotating_light: The order from *" ++ stFailed.order.restaurant_name ++
          "* has *FAILED* _(" ++ stFailed.attributes.message ++ ")_\n" ++
          stFailed.order.sharing_short_url,
        (stFailed.order.image_url.replace "{w}" "192").replace "{h}" "108",
        "Restaurant preview"⟩] ∧
    ((format_slack_status_update stFailed).2.map SlackBlock.image_url =
      [(stFailed.order.image_url.replace "{w}" "192").replace "{h}" "108"]) :=
  ⟨rfl, (spec_c9 stFailed "20 min").1 rfl, (spec_c9 stFailed "20 min").2.2.2⟩

/-- Counterexample for C10 as stated: the claim caps the behavior at one
retry (at most two post attempts).  On the response stream
[not_in_channel, not_in_channel, ok] the code joins and reposts after each
not_in_channel response: three post attempts and two joins occur, exceeding
the claimed single retry. -/
theorem spec_c10_counterexample :
    channel_post_message [SlackResponse.errNotInChannel, SlackResponse.errNotInChannel,
      SlackResponse.ok] = (3, 2, Except.ok ()) ∧ ¬(3 ≤ 2) :=
  ⟨rfl, by omega⟩

/-- Claim C10, amended: on every not_in_channel response the channel is
joined and the post retried, repeating until a response that is ok or a
non-ok response with a different error; an ok response after n
not_in_channel responses yields n+1 post attempts and n joins and succeeds,
any other non-ok response at that point yields n+1 post attempts and n
joins and fails without further retrying. -/
theorem spec_c10 (n : Nat) (e : String) (rest : List SlackResponse) :
    channel_post_message (List.replicate n SlackResponse.errNotInChannel ++
      SlackResponse.ok :: rest) = (n + 1, n, Except.ok ()) ∧
    channel_post_message (List.replicate n SlackResponse.errNotInChannel ++
      SlackResponse.errOther e :: rest) = (n + 1, n, Except.error e) := by
  induction n with
  | zero => exact ⟨rfl, rfl⟩
  | succ m ih =>
    constructor
    · rw [List.replicate_succ, List.cons_append]
      simp only [channel_post_message, ih.1, Prod.mk.injEq]
      refine ⟨by omega, by omega, trivial⟩
    · rw [List.replicate_succ, List.cons_append]
      simp only [channel_post_message, ih.2, Prod.mk.injEq]
      refine ⟨by omega, by omega, trivial⟩

end Slackiveroo
